import Mathlib

/-!
Shallow embedding of `TwitchChannelPointsMiner/classes/entities/Bet.py`: the
strategy and condition enums, the outcome-key registry, the filter condition
and its structural (de)serialization, the bet settings, and the wager engine
(`update_outcomes`, `skip`, `calculate`).

Modelling conventions: Python ints are `ℤ`, Python floats are `ℚ` (exact
arithmetic), and fallible dict/attribute lookups are `Option` (a `none`
models the exception the source would raise).  The random draw
`uniform(1, 5)` of stealth mode is passed in as an explicit parameter `r`.
-/

set_option autoImplicit false

/-- Truncation toward zero: the behaviour of Python's `int()` on a number. -/
def pyInt (q : ℚ) : ℤ := if 0 ≤ q then ⌊q⌋ else ⌈q⌉

/-- Modelled from the spec: `utils.float_round` is not under `src/`.  The spec
computes every derived statistic with `round(...)` and renders them with two
decimal places (its worked example shows `odds1 = 10000/9000 ≈ 1.11`), so we
round to two decimal places. -/
def float_round (q : ℚ) : ℚ := (round (q * 100) : ℤ) / 100

/-- Modelled from the spec: `utils.char_decision_as_index` is not under
`src/`.  Per §4.2 the chosen outcome's index is determined from
`decision.choice`: choice `"A"` is index 0, anything else index 1. -/
def char_decision_as_index (c : Option String) : Fin 2 :=
  if c = some "A" then 0 else 1

/-- The `Strategy` enum. -/
inductive Strategy where
  | MOST_VOTED
  | HIGH_ODDS
  | PERCENTAGE
  | SMART
deriving DecidableEq, Repr

/-- The `Condition` enum. -/
inductive Condition where
  | GT
  | LT
  | GTE
  | LTE
deriving DecidableEq, Repr

/-- `Condition.name`: the member name of an enum value. -/
def Condition.name : Condition → String
  | .GT => "GT"
  | .LT => "LT"
  | .GTE => "GTE"
  | .LTE => "LTE"

/-- `Condition[name]`: enum lookup by member name; `none` models the
`KeyError` raised on an unknown name. -/
def Condition.ofName (s : String) : Option Condition :=
  if s = "GT" then some .GT
  else if s = "LT" then some .LT
  else if s = "GTE" then some .GTE
  else if s = "LTE" then some .LTE
  else none

namespace OutcomeKeys

def PERCENTAGE_USERS : String := "percentage_users"

def ODDS_PERCENTAGE : String := "odds_percentage"

def ODDS : String := "odds"

def TOP_POINTS : String := "top_points"

def TOTAL_USERS : String := "total_users"

def TOTAL_POINTS : String := "total_points"

def DECISION_USERS : String := "decision_users"

def DECISION_POINTS : String := "decision_points"

/-- The uppercase class attributes of `OutcomeKeys` as `(name, value)` pairs,
in `dir()` order (alphabetical by attribute name). -/
def attrs : List (String × String) :=
  [("DECISION_POINTS", DECISION_POINTS),
   ("DECISION_USERS", DECISION_USERS),
   ("ODDS", ODDS),
   ("ODDS_PERCENTAGE", ODDS_PERCENTAGE),
   ("PERCENTAGE_USERS", PERCENTAGE_USERS),
   ("TOP_POINTS", TOP_POINTS),
   ("TOTAL_POINTS", TOTAL_POINTS),
   ("TOTAL_USERS", TOTAL_USERS)]

/-- `OutcomeKeys.search`: the name of the first uppercase attribute whose
value equals `value`; the implicit `None` of the source when no attribute
matches. -/
def search (value : String) : Option String :=
  (attrs.find? (fun p => p.2 == value)).map (fun p => p.1)

/-- `getattr(OutcomeKeys, name)`; `none` models the `AttributeError` on an
unknown attribute name. -/
def getAttr (name : String) : Option String :=
  (attrs.find? (fun p => p.1 == name)).map (fun p => p.2)

end OutcomeKeys

/-- `FilterCondition`.  `by` and `where` are Lean keywords, so the fields are
named `by_` and `where_`.  The constructor's unused `decision` parameter is
dropped. -/
structure FilterCondition where
  by_ : String
  where_ : Condition
  value : ℚ
deriving DecidableEq, Repr

/-- The plain structural form produced by `FilterCondition.to_dict`:
`{"by": ..., "where": ..., "value": ...}`.  The `by` entry is the result of
`OutcomeKeys.search`, hence an `Option`. -/
structure FilterDict where
  by_ : Option String
  where_ : String
  value : ℚ
deriving DecidableEq, Repr

def FilterCondition.to_dict (c : FilterCondition) : FilterDict :=
  { by_ := OutcomeKeys.search c.by_
    where_ := c.where_.name
    value := c.value }

/-- `FilterCondition.from_dict`.  A `none` models the exception raised when
`data["by"]` is `None` (a `TypeError` inside `getattr`), names an unknown
attribute, or `data["where"]` names no `Condition` member. -/
def FilterCondition.from_dict (d : FilterDict) : Option FilterCondition :=
  match d.by_ with
  | none => none
  | some n =>
    match OutcomeKeys.getAttr n, Condition.ofName d.where_ with
    | some v, some c => some { by_ := v, where_ := c, value := d.value }
    | some _, none => none
    | none, _ => none

/-- `BetSettings` as constructed: every field of `__init__` defaults to
`None`, and `none` models an unconfigured field. -/
structure BetSettings where
  strategy : Option Strategy
  percentage : Option ℤ
  percentage_gap : Option ℤ
  max_points : Option ℤ
  stealth_mode : Option Bool
  filter_condition : Option FilterCondition
deriving DecidableEq

/-- The Python truthiness of the constant `None`. -/
def none_is_truthy : Bool := false

/-- `BetSettings.default`.  Each line of the source reads
`self.x = self.x if not None else d`: the condition is `not None` — the
negated truthiness of the constant `None`, not `self.x is not None` — so it
is `True` whatever `self.x` holds, and every field keeps its current value. -/
def BetSettings.default (s : BetSettings) : BetSettings :=
  { strategy := cond (!none_is_truthy) s.strategy (some Strategy.SMART)
    percentage := cond (!none_is_truthy) s.percentage (some 5)
    percentage_gap := cond (!none_is_truthy) s.percentage_gap (some 20)
    max_points := cond (!none_is_truthy) s.max_points (some 50000)
    stealth_mode := cond (!none_is_truthy) s.stealth_mode (some false)
    filter_condition := s.filter_condition }

/-- The settings as the wager engine reads them.  `calculate` dispatches on
`strategy` with an `if/elif` chain, so an unset strategy simply produces no
choice (`strategy : Option Strategy`); the numeric fields and `stealth_mode`
are read directly inside `calculate`, so they must be configured (a `None`
there would raise a `TypeError` in the source). -/
structure Settings where
  strategy : Option Strategy
  percentage : ℤ
  percentage_gap : ℤ
  max_points : ℤ
  stealth_mode : Bool
  filter_condition : Option FilterCondition
deriving DecidableEq

/-- One outcome record after `Bet.__clear_outcomes` has projected it to the
whitelisted fields (the display-only `title`/`color` are not modelled).
Derived fields are backfilled with 0 until computed. -/
structure Outcome where
  total_users : ℤ
  total_points : ℤ
  percentage_users : ℚ
  odds : ℚ
  odds_percentage : ℚ
  top_points : ℤ
  id : String
deriving DecidableEq

/-- Dict lookup `outcome[key]` on the numeric fields, with `ℚ` as the common
value type.  The decision-scoped keys never occur on an outcome record
(`skip` resolves them to total keys first), so they fall to the 0 default. -/
def Outcome.get (o : Outcome) (key : String) : ℚ :=
  if key = OutcomeKeys.TOTAL_USERS then (o.total_users : ℚ)
  else if key = OutcomeKeys.TOTAL_POINTS then (o.total_points : ℚ)
  else if key = OutcomeKeys.PERCENTAGE_USERS then o.percentage_users
  else if key = OutcomeKeys.ODDS then o.odds
  else if key = OutcomeKeys.ODDS_PERCENTAGE then o.odds_percentage
  else if key = OutcomeKeys.TOP_POINTS then (o.top_points : ℚ)
  else 0

/-- The decision dict once `calculate` has populated it:
`{"choice": ..., "amount": ..., "id": ...}`. -/
structure Decision where
  choice : Option String
  amount : ℤ
  id : Option String
deriving DecidableEq

/-- The wager engine state.  `decision = none` models the empty dict set by
`__init__` (no `"choice"` key yet). -/
structure Bet where
  o0 : Outcome
  o1 : Outcome
  decision : Option Decision
  total_users : ℤ
  total_points : ℤ
  settings : Settings
deriving DecidableEq

/-- `self.outcomes[i]`. -/
def Bet.outcome (b : Bet) (i : Fin 2) : Outcome :=
  if i = 0 then b.o0 else b.o1

/-- `Bet.__init__` for outcome records as delivered at event creation: raw
totals zero, and the derived fields backfilled to zero by
`__clear_outcomes` — the state §5 of the spec describes for a `calculate`
call before any ingest. -/
def Bet.init (id0 id1 : String) (settings : Settings) : Bet :=
  { o0 := { total_users := 0, total_points := 0, percentage_users := 0,
            odds := 0, odds_percentage := 0, top_points := 0, id := id0 }
    o1 := { total_users := 0, total_points := 0, percentage_users := 0,
            odds := 0, odds_percentage := 0, top_points := 0, id := id1 }
    decision := none
    total_users := 0
    total_points := 0
    settings := settings }

/-- One raw outcome snapshot: the integer-coerced totals plus the `points`
entry of each element of `top_predictors`. -/
structure Snapshot where
  total_users : ℤ
  total_points : ℤ
  top_predictors : List ℤ

/-- Steps 1–2 of the ingest for one outcome slot: overwrite the raw totals
and, when `top_predictors` is non-empty, record the largest stake (the
source sorts the list descending by `points` and takes the first element,
i.e. the maximum). -/
def updateRaw (o : Outcome) (s : Snapshot) : Outcome :=
  let o' := { o with total_users := s.total_users, total_points := s.total_points }
  match s.top_predictors.max? with
  | none => o'
  | some m => { o' with top_points := m }

/-- The guarded recomputation of the derived fields for one outcome, given
the event totals `tu` (users) and `tp` (points). -/
def computeDerived (o : Outcome) (tu tp : ℤ) : Outcome :=
  let pu : ℚ := float_round (((100 * o.total_users : ℤ) : ℚ) / (tu : ℚ))
  let od : ℚ := float_round ((tp : ℚ) / (o.total_points : ℚ))
  let op : ℚ := float_round (100 / od)
  { o with percentage_users := pu, odds := od, odds_percentage := op }

/-- `Bet.update_outcomes`: overwrite raw fields, recompute the event totals,
and — only when `total_users > 0` and both outcomes' `total_points > 0` —
recompute the derived fields.  The trailing `__clear_outcomes` is a
projection to the fixed field set and a zero backfill, a no-op on this
fixed-field record. -/
def Bet.update_outcomes (b : Bet) (s0 s1 : Snapshot) : Bet :=
  let o0 := updateRaw b.o0 s0
  let o1 := updateRaw b.o1 s1
  let tu := o0.total_users + o1.total_users
  let tp := o0.total_points + o1.total_points
  if tu > 0 ∧ o0.total_points > 0 ∧ o1.total_points > 0 then
    { b with o0 := computeDerived o0 tu tp, o1 := computeDerived o1 tu tp,
             total_users := tu, total_points := tp }
  else
    { b with o0 := o0, o1 := o1, total_users := tu, total_points := tp }

/-- `Bet.__return_choice`. -/
def Bet.returnChoice (b : Bet) (key : String) : String :=
  if b.o0.get key > b.o1.get key then "A" else "B"

/-- The `fixed_key` computation of `Bet.skip`: the key itself unless it is
decision-scoped, in which case `key.replace("decision", "total")` is applied —
on the only two keys it ever receives, it sends `decision_users` to
`total_users` and `decision_points` to `total_points`. -/
def fixedKey (key : String) : String :=
  if key ≠ OutcomeKeys.DECISION_USERS ∧ key ≠ OutcomeKeys.DECISION_POINTS then key
  else if key = OutcomeKeys.DECISION_USERS then OutcomeKeys.TOTAL_USERS
  else OutcomeKeys.TOTAL_POINTS

/-- Whether a configured comparator accepts the compared value (the
condition under which `skip` returns `False`). -/
def Condition.holds (c : Condition) (compared value : ℚ) : Bool :=
  match c with
  | .GT => decide (compared > value)
  | .LT => decide (compared < value)
  | .GTE => decide (compared ≥ value)
  | .LTE => decide (compared ≤ value)

/-- The `if`-chain closing `Bet.skip`: return `(False, compared)` as soon as
the configured comparator accepts the compared value, else fall through to
`return True, compared`. -/
def applyCondition (condition : Condition) (compared value : ℚ) : Option (Bool × ℚ) :=
  match condition with
  | .GT => if compared > value then some (false, compared) else some (true, compared)
  | .LT => if compared < value then some (false, compared) else some (true, compared)
  | .GTE => if compared ≥ value then some (false, compared) else some (true, compared)
  | .LTE => if compared ≤ value then some (false, compared) else some (true, compared)

/-- `Bet.skip`.  The result `none` models the `KeyError` raised by
`self.decision["choice"]` when the decision dict is still empty. -/
def Bet.skip (b : Bet) : Option (Bool × ℚ) :=
  match b.settings.filter_condition with
  | some fc =>
    let key := fc.by_
    let condition := fc.where_
    let value := fc.value
    let fixed_key := fixedKey key
    let compared? : Option ℚ :=
      if key = OutcomeKeys.TOTAL_USERS ∨ key = OutcomeKeys.TOTAL_POINTS then
        some (b.o0.get fixed_key + b.o1.get fixed_key)
      else
        match b.decision with
        | none => none
        | some d =>
          some ((b.outcome (char_decision_as_index d.choice)).get fixed_key)
    match compared? with
    | none => none
    | some compared => applyCondition condition compared value
  | none => some (false, 0)

/-- The stake before any stealth adjustment:
`min(int(balance * (percentage / 100)), max_points)`. -/
def Bet.baseAmount (b : Bet) (balance : ℤ) : ℤ :=
  min (pyInt ((balance : ℚ) * ((b.settings.percentage : ℚ) / 100))) b.settings.max_points

/-- `Bet.calculate`.  `r` is the injected `uniform(1, 5)` draw used by the
stealth adjustment (§9 of the spec asks for an injected random source). -/
def Bet.calculate (b : Bet) (balance : ℤ) (r : ℚ) : Decision :=
  let choice : Option String :=
    match b.settings.strategy with
    | some .MOST_VOTED => some (b.returnChoice OutcomeKeys.TOTAL_USERS)
    | some .HIGH_ODDS => some (b.returnChoice OutcomeKeys.ODDS)
    | some .PERCENTAGE => some (b.returnChoice OutcomeKeys.ODDS_PERCENTAGE)
    | some .SMART =>
      let difference :=
        |b.o0.percentage_users - b.o1.percentage_users|
      some (if difference < (b.settings.percentage_gap : ℚ) then
              b.returnChoice OutcomeKeys.ODDS
            else
              b.returnChoice OutcomeKeys.TOTAL_USERS)
    | none => none
  match choice with
  | none => { choice := none, amount := 0, id := none }
  | some c =>
    let index := char_decision_as_index (some c)
    let out := b.outcome index
    let amount := b.baseAmount balance
    let amountQ : ℚ :=
      if b.settings.stealth_mode = true ∧ amount ≥ out.top_points then
        (out.top_points : ℚ) - r
      else
        (amount : ℚ)
    { choice := some c, amount := pyInt amountQ, id := some out.id }

/-- The metric key each strategy compares in `calculate` (for `SMART`, the
key depends on the gap between the two user percentages). -/
def comparedKey (st : Strategy) (b : Bet) : String :=
  match st with
  | .MOST_VOTED => OutcomeKeys.TOTAL_USERS
  | .HIGH_ODDS => OutcomeKeys.ODDS
  | .PERCENTAGE => OutcomeKeys.ODDS_PERCENTAGE
  | .SMART =>
    if |b.o0.percentage_users - b.o1.percentage_users| < (b.settings.percentage_gap : ℚ) then
      OutcomeKeys.ODDS
    else
      OutcomeKeys.TOTAL_USERS

/-! Concrete states used by the examples below. -/

/-- A baseline configured settings record: MOST_VOTED, 5 %, gap 20,
max 50000, stealth off, no filter. -/
def mvSettings : Settings :=
  { strategy := some Strategy.MOST_VOTED, percentage := 5, percentage_gap := 20,
    max_points := 50000, stealth_mode := false, filter_condition := none }

/-- A freshly constructed engine (no ingest yet) with `mvSettings`. -/
def mvBet : Bet := Bet.init "out0" "out1" mvSettings

/-- `mvSettings` with stealth mode enabled. -/
def stealthSettings : Settings := { mvSettings with stealth_mode := true }

/-- A `BetSettings` on which no field was ever configured. -/
def unsetSettings : BetSettings :=
  { strategy := none, percentage := none, percentage_gap := none,
    max_points := none, stealth_mode := none, filter_condition := none }

/-- An engine state after ingesting the spec's worked example
(`{users 10, points 1000}` versus `{users 90, points 9000}`), with a
recorded decision for outcome 0 and an odds filter configured. -/
def skBet : Bet :=
  { o0 := { total_users := 10, total_points := 1000, percentage_users := 10,
            odds := 10, odds_percentage := 10, top_points := 100, id := "a" }
    o1 := { total_users := 90, total_points := 9000, percentage_users := 90,
            odds := 111/100, odds_percentage := 9009/100, top_points := 200, id := "b" }
    decision := some { choice := some "A", amount := 0, id := none }
    total_users := 100
    total_points := 10000
    settings := { mvSettings with
                  filter_condition := some ⟨OutcomeKeys.ODDS, Condition.GT, 1⟩ } }

/-- A fresh engine with an odds filter configured and no decision yet. -/
def c10Bet : Bet :=
  Bet.init "a" "b"
    { mvSettings with filter_condition := some ⟨OutcomeKeys.ODDS, Condition.GT, 1⟩ }

/-- The spec's worked-example snapshots. -/
def es0 : Snapshot := ⟨10, 1000, []⟩

def es1 : Snapshot := ⟨90, 9000, []⟩

/-- An all-zero snapshot (guard fails). -/
def zeroSnap : Snapshot := ⟨0, 0, []⟩

/-- An engine state carrying nonzero derived fields, to observe retention. -/
def dBet : Bet :=
  { mvBet with
    o0 := { mvBet.o0 with percentage_users := 30, odds := 7, odds_percentage := 14 }
    o1 := { mvBet.o1 with percentage_users := 70, odds := 3, odds_percentage := 33 } }

/-! Helper lemmas. -/

theorem pyInt_intCast (n : ℤ) : pyInt (n : ℚ) = n := by
  unfold pyInt
  split <;> simp

theorem pyInt_eq_floor {q : ℚ} (h : 0 ≤ q) : pyInt q = ⌊q⌋ := if_pos h

theorem pyInt_intCast_min (a b : ℤ) : pyInt ((a : ℚ) ⊓ (b : ℚ)) = a ⊓ b := by
  rw [← Int.cast_min, pyInt_intCast]

theorem abs_float_round_sub (q : ℚ) : |float_round q - q| ≤ 1 / 200 := by
  unfold float_round
  have h2 : (round (q * 100) : ℚ) / 100 - q = ((round (q * 100) : ℚ) - q * 100) / 100 := by
    ring
  rw [h2, abs_div]
  have h3 := abs_sub_round (q * 100)
  rw [abs_sub_comm] at h3
  have h4 : |(100 : ℚ)| = 100 := by norm_num
  rw [h4]
  linarith

theorem one_le_float_round {q : ℚ} (h : 1 ≤ q) : 1 ≤ float_round q := by
  unfold float_round
  have h1 : (100 : ℤ) ≤ round (q * 100) := by
    rw [round_eq]
    refine Int.le_floor.mpr ?_
    push_cast
    linarith
  have h2 : (100 : ℚ) ≤ (round (q * 100) : ℤ) := by exact_mod_cast h1
  rw [le_div_iff₀ (by norm_num : (0 : ℚ) < 100)]
  linarith

theorem updateRaw_total_users (o : Outcome) (s : Snapshot) :
    (updateRaw o s).total_users = s.total_users := by
  unfold updateRaw
  cases s.top_predictors.max? <;> rfl

theorem updateRaw_total_points (o : Outcome) (s : Snapshot) :
    (updateRaw o s).total_points = s.total_points := by
  unfold updateRaw
  cases s.top_predictors.max? <;> rfl

theorem updateRaw_percentage_users (o : Outcome) (s : Snapshot) :
    (updateRaw o s).percentage_users = o.percentage_users := by
  unfold updateRaw
  cases s.top_predictors.max? <;> rfl

theorem updateRaw_odds (o : Outcome) (s : Snapshot) :
    (updateRaw o s).odds = o.odds := by
  unfold updateRaw
  cases s.top_predictors.max? <;> rfl

theorem updateRaw_odds_percentage (o : Outcome) (s : Snapshot) :
    (updateRaw o s).odds_percentage = o.odds_percentage := by
  unfold updateRaw
  cases s.top_predictors.max? <;> rfl

theorem computeDerived_percentage_users (o : Outcome) (tu tp : ℤ) :
    (computeDerived o tu tp).percentage_users =
      float_round (((100 * o.total_users : ℤ) : ℚ) / (tu : ℚ)) := rfl

theorem computeDerived_odds (o : Outcome) (tu tp : ℤ) :
    (computeDerived o tu tp).odds = float_round ((tp : ℚ) / (o.total_points : ℚ)) := rfl

theorem computeDerived_odds_percentage (o : Outcome) (tu tp : ℤ) :
    (computeDerived o tu tp).odds_percentage =
      float_round (100 / float_round ((tp : ℚ) / (o.total_points : ℚ))) := rfl

theorem applyCondition_eq (c : Condition) (compared value : ℚ) :
    applyCondition c compared value = some (!(c.holds compared value), compared) := by
  cases c
  all_goals unfold applyCondition Condition.holds
  · by_cases h : compared > value <;> simp [h]
  · by_cases h : compared < value <;> simp [h]
  · by_cases h : compared ≥ value <;> simp [h]
  · by_cases h : compared ≤ value <;> simp [h]

theorem calculate_choice (b : Bet) (balance : ℤ) (r : ℚ) (st : Strategy)
    (h : b.settings.strategy = some st) :
    (b.calculate balance r).choice = some (b.returnChoice (comparedKey st b)) := by
  cases st
  case SMART =>
    by_cases hd :
        |b.o0.percentage_users - b.o1.percentage_users| < (b.settings.percentage_gap : ℚ) <;>
      simp [Bet.calculate, comparedKey, h, hd]
  all_goals simp [Bet.calculate, comparedKey, h]

/-! Claim theorems. -/

/-- C1 (corrected): for every strategy, `calculate`'s choice obeys the
tie-break rule that outcome 1 wins all non-strict comparisons — the choice
is `"A"` exactly when outcome 0's compared metric is strictly greater, and
`"B"` exactly when outcome 0's metric is less than or equal to outcome 1's
(so on equality the choice is `"B"`). -/
theorem C1_choice_tiebreak (b : Bet) (balance : ℤ) (r : ℚ) (st : Strategy)
    (h : b.settings.strategy = some st) :
    ((b.calculate balance r).choice = some "A" ↔
      b.o1.get (comparedKey st b) < b.o0.get (comparedKey st b)) ∧
    ((b.calculate balance r).choice = some "B" ↔
      b.o0.get (comparedKey st b) ≤ b.o1.get (comparedKey st b)) := by
  rw [calculate_choice b balance r st h]
  unfold Bet.returnChoice
  by_cases hgt : b.o1.get (comparedKey st b) < b.o0.get (comparedKey st b)
  · simp [hgt, not_le.mpr hgt]
  · simp [hgt, not_lt.mp hgt]

/-- C1 counterexample: on a fresh engine both outcomes' `total_users` are
equal (both 0), yet the MOST_VOTED choice is `"B"`, not `"A"` as the claim's
tie-break rule demands. -/
theorem C1_counterexample :
    (mvBet.calculate 100 2).choice = some "B" ∧
    mvBet.o0.get OutcomeKeys.TOTAL_USERS = mvBet.o1.get OutcomeKeys.TOTAL_USERS := by
  with_unfolding_all decide

/-- C1 witness: the tie-break characterization applied to the fresh
MOST_VOTED engine. -/
theorem C1_witness :
    ((mvBet.calculate 100 2).choice = some "A" ↔
      mvBet.o1.get (comparedKey Strategy.MOST_VOTED mvBet) <
        mvBet.o0.get (comparedKey Strategy.MOST_VOTED mvBet)) ∧
    ((mvBet.calculate 100 2).choice = some "B" ↔
      mvBet.o0.get (comparedKey Strategy.MOST_VOTED mvBet) ≤
        mvBet.o1.get (comparedKey Strategy.MOST_VOTED mvBet)) :=
  C1_choice_tiebreak mvBet 100 2 Strategy.MOST_VOTED rfl

/-- C2 (code_bug): with stealth mode on and the chosen outcome's
`top_points = 0`, `calculate(100000)` with draw `r = 2 ∈ [1, 5)` returns the
negative amount `int(0 - 2) = -2`, violating the spec's `amount ≥ 0`. -/
theorem C2_stealth_negative_amount :
    ((Bet.init "a" "b" stealthSettings).calculate 100000 2).amount = -2 ∧
    ((Bet.init "a" "b" stealthSettings).calculate 100000 2).amount < 0 := by
  with_unfolding_all decide

/-- C3 (code_bug): `default()` never fills anything — on fully-unset
settings every field stays `none` (the source's `self.x if not None else d`
always keeps `self.x`), and in general `default` is the identity. -/
theorem C3_default_noop :
    unsetSettings.default = unsetSettings ∧ ∀ s : BetSettings, s.default = s :=
  ⟨rfl, fun _ => rfl⟩

/-- C4 (amended): on a fresh engine (raw totals and derived fields all
zero), `calculate` picks `"B"` for every strategy via the tie-break, and the
amount is the ordinary stake `min(int(balance * percentage / 100),
max_points)` — not 0 in general. -/
theorem C4_initial_calculate (st : Strategy) (pct gap maxp balance : ℤ) (r : ℚ)
    (id0 id1 : String) (fc : Option FilterCondition) :
    (Bet.init id0 id1
        { strategy := some st, percentage := pct, percentage_gap := gap,
          max_points := maxp, stealth_mode := false,
          filter_condition := fc }).calculate balance r =
      { choice := some "B",
        amount := min (pyInt ((balance : ℚ) * ((pct : ℚ) / 100))) maxp,
        id := some id1 } := by
  cases st <;>
    simp [Bet.calculate, Bet.init, Bet.returnChoice, Bet.baseAmount, Bet.outcome,
          Outcome.get, char_decision_as_index, pyInt_intCast, pyInt_intCast_min,
          OutcomeKeys.TOTAL_USERS, OutcomeKeys.TOTAL_POINTS,
          OutcomeKeys.PERCENTAGE_USERS, OutcomeKeys.ODDS,
          OutcomeKeys.ODDS_PERCENTAGE, OutcomeKeys.TOP_POINTS]

/-- C4 counterexample: before any ingest, MOST_VOTED at balance 100000 with
percentage 5 yields amount 5000, not the claimed 0. -/
theorem C4_counterexample :
    (mvBet.calculate 100000 2).amount = 5000 ∧
    (mvBet.calculate 100000 2).amount ≠ 0 := by
  with_unfolding_all decide

/-- C5 (confirmed): whenever a choice is made, the stake before any stealth
adjustment equals `min(floor(balance * percentage / 100), max_points)`, and
with stealth off this is exactly the returned amount. -/
theorem C5_stake_formula (b : Bet) (balance : ℤ) (r : ℚ) (st : Strategy)
    (hst : b.settings.strategy = some st) (hbal : 0 ≤ balance)
    (hpct : 0 ≤ b.settings.percentage) :
    b.baseAmount balance =
      min ⌊((balance * b.settings.percentage : ℤ) : ℚ) / 100⌋ b.settings.max_points ∧
    (b.settings.stealth_mode = false →
      (b.calculate balance r).amount = b.baseAmount balance) := by
  constructor
  · have h1 : (0 : ℚ) ≤ (balance : ℚ) := by exact_mod_cast hbal
    have h2 : (0 : ℚ) ≤ (b.settings.percentage : ℚ) := by exact_mod_cast hpct
    have hq : (0 : ℚ) ≤ (balance : ℚ) * ((b.settings.percentage : ℚ) / 100) := by
      apply mul_nonneg h1
      positivity
    unfold Bet.baseAmount
    rw [pyInt_eq_floor hq]
    have h3 : ((balance * b.settings.percentage : ℤ) : ℚ) / 100 =
        (balance : ℚ) * ((b.settings.percentage : ℚ) / 100) := by
      push_cast
      ring
    rw [h3]
  · intro hsm
    cases st <;> simp [Bet.calculate, hst, hsm, pyInt_intCast]

/-- C5 witness: the fresh MOST_VOTED engine at balance 100000 stakes
`min(floor(100000 * 5 / 100), 50000) = 5000`. -/
theorem C5_witness :
    mvBet.baseAmount 100000 =
      min ⌊(((100000 * 5 : ℤ)) : ℚ) / 100⌋ (50000 : ℤ) ∧
    (mvBet.calculate 100000 2).amount = mvBet.baseAmount 100000 := by
  have h := C5_stake_formula mvBet 100000 2 Strategy.MOST_VOTED rfl
    (by decide) (by decide)
  exact ⟨h.1, h.2 rfl⟩

/-- C6 (confirmed): with no filter, `skip` is `(false, 0)`; with a filter on
a whole-event total the compared value is the sum of that field over both
outcomes, otherwise it is the (decision-resolved) field on the chosen
outcome; the first component is `false` exactly when the configured
comparator accepts the compared value, and the second component is always
the compared value. -/
theorem C6_skip_characterization (b : Bet) (fc : FilterCondition) (d : Decision) :
    (b.settings.filter_condition = none → b.skip = some (false, 0)) ∧
    (b.settings.filter_condition = some fc →
      (fc.by_ = OutcomeKeys.TOTAL_USERS ∨ fc.by_ = OutcomeKeys.TOTAL_POINTS) →
      b.skip = some (!(fc.where_.holds (b.o0.get fc.by_ + b.o1.get fc.by_) fc.value),
                     b.o0.get fc.by_ + b.o1.get fc.by_)) ∧
    (b.settings.filter_condition = some fc →
      ¬(fc.by_ = OutcomeKeys.TOTAL_USERS ∨ fc.by_ = OutcomeKeys.TOTAL_POINTS) →
      b.decision = some d →
      b.skip = some
        (!(fc.where_.holds
            ((b.outcome (char_decision_as_index d.choice)).get (fixedKey fc.by_)) fc.value),
         (b.outcome (char_decision_as_index d.choice)).get (fixedKey fc.by_))) := by
  refine ⟨fun h => by simp [Bet.skip, h], fun h hby => ?_, fun h hby hd => ?_⟩
  · obtain ⟨kb, w, v⟩ := fc
    rcases hby with h'|h' <;> subst h' <;>
      simp [Bet.skip, h, applyCondition_eq, fixedKey,
            OutcomeKeys.TOTAL_USERS, OutcomeKeys.TOTAL_POINTS,
            OutcomeKeys.DECISION_USERS, OutcomeKeys.DECISION_POINTS]
  · obtain ⟨kb, w, v⟩ := fc
    simp only [not_or] at hby
    obtain ⟨h1, h2⟩ := hby
    simp [Bet.skip, h, hd, h1, h2, applyCondition_eq]

/-- C6 witness: on the worked-example state with filter `odds > 1` and the
decision on outcome 0 (odds 10), `skip` returns `(false, 10)`. -/
theorem C6_witness : skBet.skip = some (false, 10) := by
  have h := (C6_skip_characterization skBet ⟨OutcomeKeys.ODDS, Condition.GT, 1⟩
      ⟨some "A", 0, none⟩).2.2 rfl (by decide) rfl
  rw [h]
  with_unfolding_all decide

/-- C10 (confirmed): with a filter configured on a metric that is not a
whole-event total, calling `skip` while the decision dict is still empty
(no `calculate` call has chosen yet) hits the missing `"choice"` key and
raises (`none`), instead of returning a `(bool, value)` pair. -/
theorem C10_skip_requires_choice (b : Bet) (fc : FilterCondition)
    (hfc : b.settings.filter_condition = some fc)
    (hdec : b.decision = none)
    (hby : fc.by_ ∈ [OutcomeKeys.PERCENTAGE_USERS, OutcomeKeys.ODDS_PERCENTAGE,
      OutcomeKeys.ODDS, OutcomeKeys.TOP_POINTS,
      OutcomeKeys.DECISION_USERS, OutcomeKeys.DECISION_POINTS]) :
    b.skip = none := by
  obtain ⟨kb, w, v⟩ := fc
  simp only [List.mem_cons, List.not_mem_nil, or_false] at hby
  rcases hby with h|h|h|h|h|h <;> subst h <;>
    simp [Bet.skip, hfc, hdec,
      OutcomeKeys.PERCENTAGE_USERS, OutcomeKeys.ODDS_PERCENTAGE, OutcomeKeys.ODDS,
      OutcomeKeys.TOP_POINTS, OutcomeKeys.DECISION_USERS, OutcomeKeys.DECISION_POINTS,
      OutcomeKeys.TOTAL_USERS, OutcomeKeys.TOTAL_POINTS]

/-- C10 witness: the fresh engine with an odds filter and no decision yet. -/
theorem C10_witness : c10Bet.skip = none :=
  C10_skip_requires_choice c10Bet ⟨OutcomeKeys.ODDS, Condition.GT, 1⟩ rfl rfl
    (by decide)

/-- C9 (confirmed): for every filter condition whose metric is a defined
`OutcomeKeys` field value, `from_dict (to_dict c)` restores `c` exactly. -/
theorem C9_filter_roundtrip (c : FilterCondition)
    (h : c.by_ ∈ [OutcomeKeys.PERCENTAGE_USERS, OutcomeKeys.ODDS_PERCENTAGE,
      OutcomeKeys.ODDS, OutcomeKeys.TOP_POINTS, OutcomeKeys.TOTAL_USERS,
      OutcomeKeys.TOTAL_POINTS, OutcomeKeys.DECISION_USERS,
      OutcomeKeys.DECISION_POINTS]) :
    FilterCondition.from_dict c.to_dict = some c := by
  obtain ⟨kb, w, v⟩ := c
  simp only [List.mem_cons, List.not_mem_nil, or_false] at h
  rcases h with h|h|h|h|h|h|h|h <;> subst h <;> cases w <;> rfl

/-- C9 witness: the round trip at the concrete triple `(odds, GT, 1)`. -/
theorem C9_witness :
    FilterCondition.from_dict
        (FilterCondition.to_dict ⟨OutcomeKeys.ODDS, Condition.GT, 1⟩) =
      some ⟨OutcomeKeys.ODDS, Condition.GT, 1⟩ :=
  C9_filter_roundtrip ⟨OutcomeKeys.ODDS, Condition.GT, 1⟩ (by decide)

/-- C7 (confirmed): the derived-field recomputations run only under the
guard `totalUsers > 0` and both outcomes' `totalPoints > 0`; when the guard
fails, all six derived fields keep their previous values, and when it holds
every divisor involved (`total_users`, each `total_points`, and each freshly
computed `odds` used by `100 / odds`) is strictly positive. -/
theorem C7_no_division_by_zero (b : Bet) (s0 s1 : Snapshot) :
    (¬(s0.total_users + s1.total_users > 0 ∧
        s0.total_points > 0 ∧ s1.total_points > 0) →
      ((b.update_outcomes s0 s1).o0.percentage_users = b.o0.percentage_users ∧
       (b.update_outcomes s0 s1).o0.odds = b.o0.odds ∧
       (b.update_outcomes s0 s1).o0.odds_percentage = b.o0.odds_percentage ∧
       (b.update_outcomes s0 s1).o1.percentage_users = b.o1.percentage_users ∧
       (b.update_outcomes s0 s1).o1.odds = b.o1.odds ∧
       (b.update_outcomes s0 s1).o1.odds_percentage = b.o1.odds_percentage)) ∧
    ((s0.total_users + s1.total_users > 0 ∧
        s0.total_points > 0 ∧ s1.total_points > 0) →
      (0 < (b.update_outcomes s0 s1).total_users ∧
       0 < s0.total_points ∧ 0 < s1.total_points ∧
       0 < (b.update_outcomes s0 s1).o0.odds ∧
       0 < (b.update_outcomes s0 s1).o1.odds)) := by
  have e0u := updateRaw_total_users b.o0 s0
  have e1u := updateRaw_total_users b.o1 s1
  have e0p := updateRaw_total_points b.o0 s0
  have e1p := updateRaw_total_points b.o1 s1
  constructor
  · intro hg
    have hg' : ¬((updateRaw b.o0 s0).total_users + (updateRaw b.o1 s1).total_users > 0 ∧
        (updateRaw b.o0 s0).total_points > 0 ∧ (updateRaw b.o1 s1).total_points > 0) := by
      rw [e0u, e1u, e0p, e1p]
      exact hg
    simp only [Bet.update_outcomes]
    rw [if_neg hg']
    simp [updateRaw_percentage_users, updateRaw_odds, updateRaw_odds_percentage]
  · intro hg
    have hg' : (updateRaw b.o0 s0).total_users + (updateRaw b.o1 s1).total_users > 0 ∧
        (updateRaw b.o0 s0).total_points > 0 ∧ (updateRaw b.o1 s1).total_points > 0 := by
      rw [e0u, e1u, e0p, e1p]
      exact hg
    obtain ⟨h1, h2, h3⟩ := hg
    have hp0 : (0 : ℚ) < (s0.total_points : ℚ) := by exact_mod_cast h2
    have hp1 : (0 : ℚ) < (s1.total_points : ℚ) := by exact_mod_cast h3
    simp only [Bet.update_outcomes]
    rw [if_pos hg']
    refine ⟨?_, h2, h3, ?_, ?_⟩
    · simpa [e0u, e1u] using h1
    · have hodds : (1 : ℚ) ≤
          (((updateRaw b.o0 s0).total_points + (updateRaw b.o1 s1).total_points : ℤ) : ℚ) /
            ((updateRaw b.o0 s0).total_points : ℚ) := by
        rw [e0p, e1p]
        rw [le_div_iff₀ hp0]
        push_cast
        linarith
      have := one_le_float_round hodds
      simp only [computeDerived_odds]
      rw [e0p] at this ⊢
      linarith
    · have hodds : (1 : ℚ) ≤
          (((updateRaw b.o0 s0).total_points + (updateRaw b.o1 s1).total_points : ℤ) : ℚ) /
            ((updateRaw b.o1 s1).total_points : ℚ) := by
        rw [e0p, e1p]
        rw [le_div_iff₀ hp1]
        push_cast
        linarith
      have := one_le_float_round hodds
      simp only [computeDerived_odds]
      rw [e1p] at this ⊢
      linarith

/-- C7 witness: with all-zero snapshots the derived fields are retained
(`odds` stays 7); with the worked-example snapshots the freshly computed
`odds` of outcome 0 is strictly positive. -/
theorem C7_witness :
    (dBet.update_outcomes zeroSnap zeroSnap).o0.odds = dBet.o0.odds ∧
    0 < (dBet.update_outcomes es0 es1).o0.odds := by
  constructor
  · exact ((C7_no_division_by_zero dBet zeroSnap zeroSnap).1 (by decide)).2.1
  · exact ((C7_no_division_by_zero dBet es0 es1).2 (by decide)).2.2.2.1

/-- C8 (confirmed): after an ingest whose guard holds, the two user
percentages sum to 100 up to the two-decimal rounding (error at most 1/100),
each outcome's `odds` times its points reproduces the event's total points
up to `points/200`, and each `odds_percentage` is `100 / odds` up to
1/200. -/
theorem C8_derived_invariants (b : Bet) (s0 s1 : Snapshot)
    (h1 : 0 < s0.total_users + s1.total_users)
    (h2 : 0 < s0.total_points) (h3 : 0 < s1.total_points) :
    |(b.update_outcomes s0 s1).o0.percentage_users +
        (b.update_outcomes s0 s1).o1.percentage_users - 100| ≤ 1 / 100 ∧
    |(b.update_outcomes s0 s1).o0.odds * (s0.total_points : ℚ) -
        ((s0.total_points : ℚ) + (s1.total_points : ℚ))| ≤ (s0.total_points : ℚ) / 200 ∧
    |(b.update_outcomes s0 s1).o1.odds * (s1.total_points : ℚ) -
        ((s0.total_points : ℚ) + (s1.total_points : ℚ))| ≤ (s1.total_points : ℚ) / 200 ∧
    |(b.update_outcomes s0 s1).o0.odds_percentage -
        100 / (b.update_outcomes s0 s1).o0.odds| ≤ 1 / 200 ∧
    |(b.update_outcomes s0 s1).o1.odds_percentage -
        100 / (b.update_outcomes s0 s1).o1.odds| ≤ 1 / 200 := by
  have e0u := updateRaw_total_users b.o0 s0
  have e1u := updateRaw_total_users b.o1 s1
  have e0p := updateRaw_total_points b.o0 s0
  have e1p := updateRaw_total_points b.o1 s1
  have hg' : (updateRaw b.o0 s0).total_users + (updateRaw b.o1 s1).total_users > 0 ∧
      (updateRaw b.o0 s0).total_points > 0 ∧ (updateRaw b.o1 s1).total_points > 0 := by
    rw [e0u, e1u, e0p, e1p]
    exact ⟨h1, h2, h3⟩
  have hp0 : (0 : ℚ) < (s0.total_points : ℚ) := by exact_mod_cast h2
  have hp1 : (0 : ℚ) < (s1.total_points : ℚ) := by exact_mod_cast h3
  have hT : ((s0.total_users + s1.total_users : ℤ) : ℚ) ≠ 0 := by
    have : (0 : ℚ) < ((s0.total_users + s1.total_users : ℤ) : ℚ) := by exact_mod_cast h1
    exact this.ne'
  have f0pu : (b.update_outcomes s0 s1).o0.percentage_users =
      float_round (((100 * s0.total_users : ℤ) : ℚ) /
        ((s0.total_users + s1.total_users : ℤ) : ℚ)) := by
    simp only [Bet.update_outcomes]
    rw [if_pos hg']
    simp [computeDerived_percentage_users, e0u, e1u]
  have f1pu : (b.update_outcomes s0 s1).o1.percentage_users =
      float_round (((100 * s1.total_users : ℤ) : ℚ) /
        ((s0.total_users + s1.total_users : ℤ) : ℚ)) := by
    simp only [Bet.update_outcomes]
    rw [if_pos hg']
    simp [computeDerived_percentage_users, e0u, e1u]
  have f0od : (b.update_outcomes s0 s1).o0.odds =
      float_round (((s0.total_points + s1.total_points : ℤ) : ℚ) /
        (s0.total_points : ℚ)) := by
    simp only [Bet.update_outcomes]
    rw [if_pos hg']
    simp [computeDerived_odds, e0p, e1p]
  have f1od : (b.update_outcomes s0 s1).o1.odds =
      float_round (((s0.total_points + s1.total_points : ℤ) : ℚ) /
        (s1.total_points : ℚ)) := by
    simp only [Bet.update_outcomes]
    rw [if_pos hg']
    simp [computeDerived_odds, e0p, e1p]
  have f0op : (b.update_outcomes s0 s1).o0.odds_percentage =
      float_round (100 / float_round (((s0.total_points + s1.total_points : ℤ) : ℚ) /
        (s0.total_points : ℚ))) := by
    simp only [Bet.update_outcomes]
    rw [if_pos hg']
    simp [computeDerived_odds_percentage, e0p, e1p]
  have f1op : (b.update_outcomes s0 s1).o1.odds_percentage =
      float_round (100 / float_round (((s0.total_points + s1.total_points : ℤ) : ℚ) /
        (s1.total_points : ℚ))) := by
    simp only [Bet.update_outcomes]
    rw [if_pos hg']
    simp [computeDerived_odds_percentage, e0p, e1p]
  refine ⟨?_, ?_, ?_, ?_, ?_⟩
  · rw [f0pu, f1pu]
    have a0 := abs_float_round_sub (((100 * s0.total_users : ℤ) : ℚ) /
      ((s0.total_users + s1.total_users : ℤ) : ℚ))
    have a1 := abs_float_round_sub (((100 * s1.total_users : ℤ) : ℚ) /
      ((s0.total_users + s1.total_users : ℤ) : ℚ))
    have hsum : ((100 * s0.total_users : ℤ) : ℚ) /
          ((s0.total_users + s1.total_users : ℤ) : ℚ) +
        ((100 * s1.total_users : ℤ) : ℚ) /
          ((s0.total_users + s1.total_users : ℤ) : ℚ) = 100 := by
      rw [div_add_div_same, div_eq_iff hT]
      push_cast
      ring
    have key : float_round (((100 * s0.total_users : ℤ) : ℚ) /
          ((s0.total_users + s1.total_users : ℤ) : ℚ)) +
        float_round (((100 * s1.total_users : ℤ) : ℚ) /
          ((s0.total_users + s1.total_users : ℤ) : ℚ)) - 100 =
        (float_round (((100 * s0.total_users : ℤ) : ℚ) /
            ((s0.total_users + s1.total_users : ℤ) : ℚ)) -
          ((100 * s0.total_users : ℤ) : ℚ) /
            ((s0.total_users + s1.total_users : ℤ) : ℚ)) +
        (float_round (((100 * s1.total_users : ℤ) : ℚ) /
            ((s0.total_users + s1.total_users : ℤ) : ℚ)) -
          ((100 * s1.total_users : ℤ) : ℚ) /
            ((s0.total_users + s1.total_users : ℤ) : ℚ)) := by
      rw [← hsum]
      ring
    rw [key]
    refine le_trans (abs_add _ _) ?_
    linarith
  · rw [f0od]
    have hq : ((s0.total_points + s1.total_points : ℤ) : ℚ) / (s0.total_points : ℚ) *
        (s0.total_points : ℚ) = (s0.total_points : ℚ) + (s1.total_points : ℚ) := by
      rw [div_mul_cancel₀ _ hp0.ne']
      push_cast
      ring
    have expand : float_round (((s0.total_points + s1.total_points : ℤ) : ℚ) /
          (s0.total_points : ℚ)) * (s0.total_points : ℚ) -
        ((s0.total_points : ℚ) + (s1.total_points : ℚ)) =
        (float_round (((s0.total_points + s1.total_points : ℤ) : ℚ) /
            (s0.total_points : ℚ)) -
          ((s0.total_points + s1.total_points : ℤ) : ℚ) / (s0.total_points : ℚ)) *
          (s0.total_points : ℚ) := by
      rw [sub_mul, hq]
    rw [expand, abs_mul, abs_of_pos hp0]
    have a2 := abs_float_round_sub (((s0.total_points + s1.total_points : ℤ) : ℚ) /
      (s0.total_points : ℚ))
    have step := mul_le_mul_of_nonneg_right a2 hp0.le
    linarith
  · rw [f1od]
    have hq : ((s0.total_points + s1.total_points : ℤ) : ℚ) / (s1.total_points : ℚ) *
        (s1.total_points : ℚ) = (s0.total_points : ℚ) + (s1.total_points : ℚ) := by
      rw [div_mul_cancel₀ _ hp1.ne']
      push_cast
      ring
    have expand : float_round (((s0.total_points + s1.total_points : ℤ) : ℚ) /
          (s1.total_points : ℚ)) * (s1.total_points : ℚ) -
        ((s0.total_points : ℚ) + (s1.total_points : ℚ)) =
        (float_round (((s0.total_points + s1.total_points : ℤ) : ℚ) /
            (s1.total_points : ℚ)) -
          ((s0.total_points + s1.total_points : ℤ) : ℚ) / (s1.total_points : ℚ)) *
          (s1.total_points : ℚ) := by
      rw [sub_mul, hq]
    rw [expand, abs_mul, abs_of_pos hp1]
    have a2 := abs_float_round_sub (((s0.total_points + s1.total_points : ℤ) : ℚ) /
      (s1.total_points : ℚ))
    have step := mul_le_mul_of_nonneg_right a2 hp1.le
    linarith
  · rw [f0op, f0od]
    exact abs_float_round_sub _
  · rw [f1op, f1od]
    exact abs_float_round_sub _

/-- C8 witness: the invariants at the worked-example snapshots
(users 10/90, points 1000/9000). -/
theorem C8_witness :
    |(dBet.update_outcomes es0 es1).o0.percentage_users +
        (dBet.update_outcomes es0 es1).o1.percentage_users - 100| ≤ 1 / 100 ∧
    |(dBet.update_outcomes es0 es1).o0.odds * (es0.total_points : ℚ) -
        ((es0.total_points : ℚ) + (es1.total_points : ℚ))| ≤
      (es0.total_points : ℚ) / 200 ∧
    |(dBet.update_outcomes es0 es1).o1.odds * (es1.total_points : ℚ) -
        ((es0.total_points : ℚ) + (es1.total_points : ℚ))| ≤
      (es1.total_points : ℚ) / 200 ∧
    |(dBet.update_outcomes es0 es1).o0.odds_percentage -
        100 / (dBet.update_outcomes es0 es1).o0.odds| ≤ 1 / 200 ∧
    |(dBet.update_outcomes es0 es1).o1.odds_percentage -
        100 / (dBet.update_outcomes es0 es1).o1.odds| ≤ 1 / 200 :=
  C8_derived_invariants dBet es0 es1 (by decide) (by decide) (by decide)
